import Mathlib

/-!
Shallow embedding of `src/main.py` (trackstack), a single-page tracker-audit
scanner, and proofs about its specification.

The program's core is three functions:

* `extract_third_party` (main.py lines 20-96): normalizes the input URL
  (lines 25-26), extracts the registrable root domain with `tldextract`
  (lines 28-36), drives a Playwright browser session whose `request` event
  handler (`handle_request`, lines 54-69) accumulates third-party registrable
  domains into a Python set, and returns `sorted(list(third_party_domains))`
  (line 96).
* `lookup_ddg` (lines 98-127): for each domain, one HTTP GET against the
  DuckDuckGo tracker-radar dataset; 200 responses are parsed as JSON (with a
  missing `"domain"` key defaulted to the queried domain, lines 115-116) and
  appended to `hits`; 404, other statuses and `requests.RequestException`
  (which, in requests >= 2.27, includes the `JSONDecodeError` raised by
  `r.json()` on an unparseable body) skip the domain and continue.
* `scan_url` (lines 302-314): runs the two stages and emits one
  `tracker_found` event per resolved record, with every exception caught by
  the enclosing `try`/`except` (line 313).

External effects are embedded as explicit oracles:

* `ext : String → Option String` stands for
  `tldextract.extract(u).registered_domain`; `none` models the (caught)
  exception case of lines 34-36 and 66-69, `some r` the returned string
  (possibly `""` when no registrable domain exists).
* `ObserverRun` records one browser session's behaviour: whether
  `p.chromium.launch`, `browser.new_context` and `context.new_page` succeed,
  the list of request URLs delivered to the `request` handler (in event
  order) before navigation ended, and how navigation ended.
* `fetch : String → HttpResult` stands for `requests.get` keyed by the
  requested URL.

Python strings are Lean `String`s; Python string primitives used by the code
(`startswith`, `lstrip`, `<` comparison) are defined below on the underlying
character lists with Python's semantics (code-point lexicographic order).
Python dicts parsed from JSON are association lists with unique keys
(`json.loads` collapses duplicates); `dict.get`, `in` and item assignment are
modelled on them.  The Python set of captured domains is modelled as a
duplicate-free list in insertion order; `sorted(...)` is modelled by
`List.insertionSort`, which produces the same list as Python's sort does on
any ordering of the same elements (both are the sorted arrangement of that
duplicate-free collection).
-/

namespace Trackstack

/-- Boolean list-prefix test, structurally recursive so it computes by `rfl`.
`strPrefixData p s` is true iff `p` is a prefix of `s`. -/
def strPrefixData : List Char → List Char → Bool
  | [], _ => true
  | _ :: _, [] => false
  | a :: as, b :: bs => a == b && strPrefixData as bs

/-- Python `s.startswith(p)`. -/
def pyStartsWith (s p : String) : Bool := strPrefixData p.data s.data

/-- Python `s.lstrip("/")`: drop every leading `'/'`. -/
def pyLstripSlash (s : String) : String := ⟨s.data.dropWhile (· = '/')⟩

/-- Lexicographic (code-point) order on character lists, Python's string
comparison.  `charListLe a b` is true iff `a <= b` in Python. -/
def charListLe : List Char → List Char → Bool
  | [], _ => true
  | _ :: _, [] => false
  | a :: as, b :: bs => if a = b then charListLe as bs else decide (a < b)

/-- Python `a <= b` on strings. -/
def pyLe (a b : String) : Prop := charListLe a.data b.data = true

/-- Python `a < b` on strings (strictly increasing = `<=` together with
distinctness, for a total antisymmetric `<=`). -/
def pyLt (a b : String) : Prop := pyLe a b ∧ a ≠ b

instance : DecidableRel pyLe := fun a b => inferInstanceAs (Decidable (_ = true))

instance : DecidableRel pyLt := fun a b => inferInstanceAs (Decidable (_ ∧ _))

/-- Domain Normalizer, main.py lines 25-26:
`if not url.startswith(("http://", "https://")): url = "https://" + url.lstrip("/")`. -/
def normalizeUrl (url : String) : String :=
  if pyStartsWith url "http://" || pyStartsWith url "https://" then url
  else "https://" ++ pyLstripSlash url

/-- A Python value as produced by `json.loads` (plus the values the program
builds from them). -/
inductive PyVal where
  | str (s : String)
  | num (n : Int)
  | boolV (b : Bool)
  | nullV
  | list (xs : List PyVal)
  | dict (kvs : List (String × PyVal))

/-- Whether a Python value is a string. -/
def PyVal.isStr : PyVal → Bool
  | .str _ => true
  | _ => false

/-- A parsed JSON object: a Python dict with string keys. -/
abbrev Tracker := List (String × PyVal)

/-- Key lookup in a Python dict (keys are unique after `json.loads`). -/
def pyFind (kvs : Tracker) (k : String) : Option PyVal :=
  match kvs.find? (fun kv => kv.1 == k) with
  | some kv => some kv.2
  | none => none

/-- Python `d.get(k, dflt)`. -/
def pyGet (kvs : Tracker) (k : String) (dflt : PyVal) : PyVal :=
  (pyFind kvs k).getD dflt

/-- Python `k in d`. -/
def pyHasKey (kvs : Tracker) (k : String) : Bool :=
  (pyFind kvs k).isSome

/-- Python `d[k] = v` for a key not yet present (appends in insertion
order); the program only assigns `data["domain"]` after checking
`"domain" not in data`. -/
def pySetNew (kvs : Tracker) (k : String) (v : PyVal) : Tracker :=
  kvs ++ [(k, v)]

/-- The Python exceptions the embedding distinguishes. -/
inductive PyError where
  | unboundLocal (name : String)
  | attributeError
  | typeError
deriving DecidableEq

/-- Collect the strings of a list of Python values; `none` when some element
is not a string (then `", ".join(...)` raises `TypeError`). -/
def allStrings : List PyVal → Option (List String)
  | [] => some []
  | .str s :: rest =>
    match allStrings rest with
    | some ss => some (s :: ss)
    | none => none
  | _ :: _ => none

/-- Python `sep.join(x)`: succeeds on a list of strings (joined with `sep`),
on a string (joining its characters) and on a dict (joining its keys);
raises `TypeError` otherwise. -/
def pyJoin (sep : String) : PyVal → Except PyError String
  | .list xs =>
    match allStrings xs with
    | some ss => .ok (String.intercalate sep ss)
    | none => .error .typeError
  | .str s => .ok (String.intercalate sep (s.data.map (fun c => String.mk [c])))
  | .dict kvs => .ok (String.intercalate sep (kvs.map (fun kv => kv.1)))
  | _ => .error .typeError

/-- One emitted `tracker_found` event, main.py lines 307-312. -/
structure Finding where
  domain : PyVal
  owner : PyVal
  categories : String
  cookies : PyVal

/-- How `page.goto` ended: normally, with a navigation error, or with a
Playwright timeout.  Lines 84-86 catch every `Exception` identically (the
branch only prints), so the three cases produce the same value; the field
lets scan scenarios be stated. -/
inductive NavOutcome where
  | success
  | navError
  | timeout
deriving DecidableEq

/-- One browser session's behaviour, the Observer's environment. -/
structure ObserverRun where
  /-- `p.chromium.launch(headless=True)` (line 45) succeeds. -/
  launchOk : Bool
  /-- `browser.new_context(...)` (lines 47-50) succeeds. -/
  contextOk : Bool
  /-- `context.new_page()` (line 51) succeeds. -/
  pageOk : Bool
  /-- the request URLs delivered to the `request` handler, in event order,
  before navigation ended (on error or timeout: the ones delivered so far). -/
  requests : List String
  /-- how `page.goto` (line 77) ended. -/
  nav : NavOutcome

/-- Python `set.add`: the set is modelled as a duplicate-free list in
insertion order. -/
def pyAdd (acc : List String) (x : String) : List String :=
  if x ∈ acc then acc else acc ++ [x]

/-- The `request` event handler, main.py lines 54-69: skip `data:` URLs,
extract the registrable domain (an extraction exception, `ext u = none`, is
caught and the request dropped, lines 66-69), and add it to the set when it
is non-empty and differs from the root domain (line 64). -/
def handle_request (ext : String → Option String) (root : String)
    (acc : List String) (u : String) : List String :=
  if pyStartsWith u "data:" then acc
  else
    match ext u with
    | none => acc
    | some req =>
      if req ≠ "" ∧ req ≠ root ∧ req ≠ "" then pyAdd acc req else acc

/-- The accumulated `third_party_domains` set after all delivered request
events. -/
def observedDomains (ext : String → Option String) (root : String)
    (requests : List String) : List String :=
  requests.foldl (handle_request ext root) []

/-- Python `sorted(...)` on strings. -/
def pySorted (l : List String) : List String :=
  List.insertionSort pyLe l

/-- Which of the three browser resources the `finally` block
(main.py lines 87-94) actually closed. -/
structure Teardown where
  pageClosed : Bool
  contextClosed : Bool
  browserClosed : Bool
deriving DecidableEq

/-- The `finally` block, lines 87-94.  Only `browser` is initialized to
`None` before the `try` (line 42); `context` and `page` are plain locals
assigned inside it, so when any of launch, `new_context` or `new_page`
failed, the first statement `if page:` raises `UnboundLocalError` and no
resource is closed.  When all three were created, all three are closed. -/
def teardown (run : ObserverRun) : Teardown :=
  if run.launchOk && run.contextOk && run.pageOk then ⟨true, true, true⟩
  else ⟨false, false, false⟩

/-- Whether the `finally` block itself raises (`if page:` with `page` never
assigned). -/
def teardownRaises (run : ObserverRun) : Bool :=
  !(run.launchOk && run.contextOk && run.pageOk)

/-- Whether a browser process was created (launch succeeded). -/
def browserCreated (run : ObserverRun) : Bool :=
  run.launchOk

/-- `extract_third_party`, main.py lines 20-96, as a function of the
extraction oracle and the session behaviour.  `.error` models an uncaught
exception propagating to the caller; `.ok` the returned list.

* lines 25-26: URL normalization;
* lines 28-36: root-domain extraction; an exception (`ext _ = none`) or an
  empty registrable domain returns `[]`;
* lines 41-94: the Playwright block.  If launch, `new_context` or
  `new_page` fails, the exception is caught at line 84, but the `finally`
  block then raises `UnboundLocalError` on `if page:` (see `teardown`),
  which propagates.  Otherwise the handler has processed `run.requests`
  and any `page.goto` outcome (success, error, timeout) reaches line 96;
* line 96: `sorted(list(third_party_domains))`. -/
def extract_third_party (ext : String → Option String) (run : ObserverRun)
    (url : String) : Except PyError (List String) :=
  let url := normalizeUrl url
  match ext url with
  | none => .ok []
  | some root =>
    if root = "" then .ok []
    else if teardownRaises run then .error (.unboundLocal "page")
    else .ok (pySorted (observedDomains ext root run.requests))

/-- The tracker-radar URL for one domain, main.py line 109. -/
def rawUrl (d : String) : String :=
  "https://raw.githubusercontent.com/duckduckgo/tracker-radar/main/domains/US/" ++ d ++ ".json"

/-- What `r.json()` yields on a 200 response: a parsed JSON object, or a
parse failure (`requests.exceptions.JSONDecodeError`, a
`RequestException`). -/
inductive JsonBody where
  | parsed (data : Tracker)
  | invalid

/-- One `requests.get` outcome: a response with a status code and body, or a
`requests.RequestException` (timeout, DNS failure, connection refused). -/
inductive HttpResult where
  | resp (status : Nat) (body : JsonBody)
  | exn

/-- Lines 114-116: `if "domain" not in data: data["domain"] = d`. -/
def defaultDomain (d : String) (data : Tracker) : Tracker :=
  if pyHasKey data "domain" then data else pySetNew data "domain" (.str d)

/-- The per-domain lookup loop of `lookup_ddg`, main.py lines 107-125,
instrumented: the first component pairs each appended hit with the domain
whose lookup produced it, the second records every URL fetched (one GET per
domain, line 111, issued before the status dispatch).

* `requests.get` raises (lines 123-125): skip, continue;
* status 200 (lines 112-118): parse the body; on success default a missing
  `"domain"` key to the queried domain and append the record; an
  unparseable body makes `r.json()` raise `JSONDecodeError`, caught by
  `except requests.RequestException` (line 123) — skip, continue;
* status 404 (lines 119-120): skip, continue;
* any other status (lines 121-122): skip, continue. -/
def lookup_ddg_run (fetch : String → HttpResult) :
    List String → List (String × Tracker) × List String
  | [] => ([], [])
  | d :: ds =>
    let u := rawUrl d
    let rest := lookup_ddg_run fetch ds
    match fetch u with
    | .exn => (rest.1, u :: rest.2)
    | .resp status body =>
      if status = 200 then
        match body with
        | .parsed data => ((d, defaultDomain d data) :: rest.1, u :: rest.2)
        | .invalid => (rest.1, u :: rest.2)
      else if status = 404 then (rest.1, u :: rest.2)
      else (rest.1, u :: rest.2)

/-- `lookup_ddg`, main.py lines 98-127: the list `hits` of resolved records,
in input-domain order (the instrumentation of `lookup_ddg_run` projected
away). -/
def lookup_ddg (fetch : String → HttpResult) (domains : List String) : List Tracker :=
  ((lookup_ddg_run fetch domains).1).map Prod.snd

/-- Building one `tracker_found` event payload, main.py lines 307-312.
`tracker.get("domain", "Unknown")` and `tracker.get("cookies", "N/A")`
cannot raise on a dict; `tracker.get("owner", {}).get("name", "Unknown")`
raises `AttributeError` when the stored `"owner"` value is not a dict;
`", ".join(tracker.get("categories", []))` raises `TypeError` on a
non-joinable value. -/
def emitTracker (tracker : Tracker) : Except PyError Finding :=
  let domain := pyGet tracker "domain" (.str "Unknown")
  match pyGet tracker "owner" (.dict []) with
  | .dict kvs =>
    let owner := pyGet kvs "name" (.str "Unknown")
    match pyJoin ", " (pyGet tracker "categories" (.list [])) with
    | .ok cats =>
      .ok ⟨domain, owner, cats, pyGet tracker "cookies" (.str "N/A")⟩
    | .error e => .error e
  | _ => .error .attributeError

/-- The emission loop `for tracker in trackers:` of `scan_url`
(main.py lines 306-312): events already emitted stay emitted; an exception
while building a payload aborts the loop (caught at line 313), so later
records produce no event. -/
def emitLoopP : List Tracker → List Finding
  | [] => []
  | t :: ts =>
    match emitTracker t with
    | .ok f => f :: emitLoopP ts
    | .error _ => []

/-- The emission loop over instrumented (queried-domain, record) pairs. -/
def emitLoop : List (String × Tracker) → List (String × Finding)
  | [] => []
  | (d, t) :: ps =>
    match emitTracker t with
    | .ok f => (d, f) :: emitLoop ps
    | .error _ => []

/-- `scan_url`, main.py lines 302-314: the sequence of `tracker_found`
events emitted to the consumer.  The `try`/`except` at lines 303/313
catches every exception (from `extract_third_party` and from the emission
loop alike), so the function always yields the events emitted so far. -/
def scan_url (ext : String → Option String) (run : ObserverRun)
    (fetch : String → HttpResult) (url : String) : List Finding :=
  match extract_third_party ext run url with
  | .error _ => []
  | .ok ds => emitLoopP (lookup_ddg fetch ds)

/-- `scan_url`'s emissions paired with the queried domain each event
answers for (ghost instrumentation; `scan_url` is its second projection,
proved below). -/
def scanPairs (ext : String → Option String) (run : ObserverRun)
    (fetch : String → HttpResult) (url : String) : List (String × Finding) :=
  match extract_third_party ext run url with
  | .error _ => []
  | .ok ds => emitLoop (lookup_ddg_run fetch ds).1

/-- A lookup outcome that yields no hit: anything but a 200 response with a
parseable body. -/
def yieldsNoHit : HttpResult → Bool
  | .resp s (.parsed _) => decide (s ≠ 200)
  | .resp _ .invalid => true
  | .exn => true

/-- A lookup outcome in the failure classes of the response-code policy:
HTTP 404, any status other than 200, or a transport-level
`requests.RequestException`. -/
def failedLookup : HttpResult → Bool
  | .resp s _ => decide (s ≠ 200)
  | .exn => true

/-- A lookup outcome whose 200 body (if any) carries no `"domain"` key. -/
def lacksDomainKey : HttpResult → Bool
  | .resp _ (.parsed data) => !pyHasKey data "domain"
  | _ => true

/-- A resolved record of the shape the specification describes: its
`"owner"` value (when present) is a JSON object and its `"categories"`
value (when present) is a list of strings. -/
def shapeOK (t : Tracker) : Bool :=
  (match pyFind t "owner" with
   | some (.dict _) => true
   | none => true
   | some _ => false)
  &&
  (match pyFind t "categories" with
   | some (.list xs) => xs.all PyVal.isStr
   | none => true
   | some _ => false)

/-- The category labels of a record: the strings of its `"categories"`
list (all of them, when the record is well-shaped). -/
def catLabels (t : Tracker) : List String :=
  match pyFind t "categories" with
  | some (.list xs) =>
    xs.filterMap (fun v => match v with | .str s => some s | _ => none)
  | _ => []

/-- Modelled from the spec wording of the outbound Finding event
(spec section 6, as amended): the event carries the record's `"domain"`
value, its `owner.name` value or `"Unknown"` when absent, the `", "`-joined
category labels, and the record's `"cookies"` value verbatim or `"N/A"`
when absent.  Compared against the code's `emitTracker` below. -/
def findingSpec (t : Tracker) : Finding where
  domain := pyGet t "domain" (.str "Unknown")
  owner :=
    match pyFind t "owner" with
    | some (.dict kvs) => pyGet kvs "name" (.str "Unknown")
    | _ => .str "Unknown"
  categories := String.intercalate ", " (catLabels t)
  cookies :=
    match pyFind t "cookies" with
    | some v => v
    | none => .str "N/A"

/-! ### Concrete scan scenarios, used to instantiate the theorems -/

/-- A concrete `tldextract` oracle: the scan target `site.example` and two
third-party CDN hosts. -/
def extSite : String → Option String := fun u =>
  if u = "https://site.example" then some "site.example"
  else if u = "https://cdn.alpha.example/a.js" then some "alpha.example"
  else if u = "https://cdn.zeta.example/z.js" then some "zeta.example"
  else none

/-- A session that captures the two third-party requests, zeta before
alpha, and settles normally. -/
def runAll : ObserverRun :=
  ⟨true, true, true, ["https://cdn.zeta.example/z.js", "https://cdn.alpha.example/a.js"], .success⟩

/-- A session that captures only the alpha request. -/
def runAlpha : ObserverRun :=
  ⟨true, true, true, ["https://cdn.alpha.example/a.js"], .success⟩

/-- A session whose browser fails to launch (line 45 raises). -/
def runLaunchFail : ObserverRun := ⟨false, true, true, [], .success⟩

/-- A session whose `context.new_page()` fails (line 51 raises) after the
browser was launched. -/
def runPageFail : ObserverRun := ⟨true, true, false, [], .success⟩

/-- A session that captured the alpha request and then failed to
navigate. -/
def runNavError : ObserverRun :=
  ⟨true, true, true, ["https://cdn.alpha.example/a.js"], .navError⟩

/-- A tracker-radar oracle with metadata for both third parties (neither
body carries a `"domain"` key). -/
def fetchHits : String → HttpResult := fun u =>
  if u = rawUrl "alpha.example" then
    .resp 200 (.parsed
      [("owner", .dict [("name", .str "AlphaCo")]),
       ("categories", .list [.str "Advertising"]),
       ("cookies", .str "Yes")])
  else if u = rawUrl "zeta.example" then .resp 200 (.parsed [])
  else .exn

/-- A tracker-radar oracle answering 404 for `bad.example` and 200 for the
two known third parties. -/
def fetchMixed : String → HttpResult := fun u =>
  if u = rawUrl "bad.example" then .resp 404 .invalid
  else fetchHits u

/-- A tracker-radar oracle answering 200 with an unparseable body for
`bad.example`. -/
def fetchBadJson : String → HttpResult := fun u =>
  if u = rawUrl "bad.example" then .resp 200 .invalid
  else fetchHits u

/-- A tracker-radar oracle whose 200 body for `alpha.example` itself
supplies a `"domain"` field naming the scan target's root domain. -/
def fetchLiar : String → HttpResult := fun u =>
  if u = rawUrl "alpha.example" then .resp 200 (.parsed [("domain", .str "site.example")])
  else .exn

/-- A tracker-radar oracle whose 200 body for `alpha.example` stores a
number under `"cookies"` (as the real tracker-radar dataset does). -/
def fetchNumCookies : String → HttpResult := fun u =>
  if u = rawUrl "alpha.example" then .resp 200 (.parsed [("cookies", .num 1)])
  else .exn

/-! ## Order properties of the Python string comparison -/

theorem charListLe_refl : ∀ a : List Char, charListLe a a = true
  | [] => rfl
  | _ :: as => by simp [charListLe, charListLe_refl as]

theorem charListLe_total : ∀ a b : List Char, charListLe a b = true ∨ charListLe b a = true
  | [], _ => Or.inl rfl
  | _ :: _, [] => Or.inr rfl
  | a :: as, b :: bs => by
    by_cases hab : a = b
    · subst hab
      simpa [charListLe] using charListLe_total as bs
    · rcases lt_or_gt_of_ne hab with h | h
      · exact Or.inl (by simp [charListLe, hab, h])
      · exact Or.inr (by simp [charListLe, Ne.symm hab, h])

theorem charListLe_trans : ∀ a b c : List Char,
    charListLe a b = true → charListLe b c = true → charListLe a c = true
  | [], _, _, _, _ => rfl
  | _ :: _, [], _, h, _ => by simp [charListLe] at h
  | _ :: _, _ :: _, [], _, h => by simp [charListLe] at h
  | a :: as, b :: bs, c :: cs, h₁, h₂ => by
    by_cases hab : a = b <;> by_cases hbc : b = c
    · subst hab; subst hbc
      simp only [charListLe, if_pos rfl] at h₁ h₂ ⊢
      exact charListLe_trans as bs cs h₁ h₂
    · subst hab
      simpa [charListLe, hbc] using h₂
    · subst hbc
      simpa [charListLe, hab] using h₁
    · simp only [charListLe, if_neg hab] at h₁
      simp only [charListLe, if_neg hbc] at h₂
      have hac : a < c := lt_trans (of_decide_eq_true h₁) (of_decide_eq_true h₂)
      simp [charListLe, ne_of_lt hac, hac]

instance : IsTotal String pyLe :=
  ⟨fun a b => charListLe_total a.data b.data⟩

instance : IsTrans String pyLe :=
  ⟨fun a b c => charListLe_trans a.data b.data c.data⟩

instance : IsRefl String pyLe :=
  ⟨fun a => charListLe_refl a.data⟩

/-! ## The third-party filter: membership and uniqueness -/

theorem mem_pyAdd {acc : List String} {x y : String} :
    y ∈ pyAdd acc x ↔ y ∈ acc ∨ y = x := by
  unfold pyAdd
  split
  · constructor
    · exact Or.inl
    · rintro (h | rfl) <;> assumption
  · simp

theorem nodup_pyAdd {acc : List String} {x : String} (h : acc.Nodup) :
    (pyAdd acc x).Nodup := by
  unfold pyAdd
  split
  · exact h
  · simp_all [List.nodup_append]

theorem mem_handle_request {ext : String → Option String} {root : String}
    {acc : List String} {u y : String} (h : y ∈ handle_request ext root acc u) :
    y ∈ acc ∨ (y ≠ "" ∧ y ≠ root) := by
  unfold handle_request at h
  split at h
  · exact Or.inl h
  · split at h
    · exact Or.inl h
    · rename_i req _
      split at h
      · rcases mem_pyAdd.mp h with h' | rfl
        · exact Or.inl h'
        · rename_i hcond
          exact Or.inr ⟨hcond.1, hcond.2.1⟩
      · exact Or.inl h

theorem nodup_handle_request {ext : String → Option String} {root : String}
    {acc : List String} {u : String} (h : acc.Nodup) :
    (handle_request ext root acc u).Nodup := by
  unfold handle_request
  split
  · exact h
  · split
    · exact h
    · split
      · exact nodup_pyAdd h
      · exact h

theorem mem_foldl_handle_request {ext : String → Option String} {root : String} :
    ∀ (requests : List String) {acc : List String} {y : String},
      y ∈ requests.foldl (handle_request ext root) acc →
      y ∈ acc ∨ (y ≠ "" ∧ y ≠ root)
  | [], _, _, h => Or.inl h
  | u :: us, acc, y, h => by
    rcases mem_foldl_handle_request us h with h' | h'
    · exact mem_handle_request h'
    · exact Or.inr h'

theorem nodup_foldl_handle_request {ext : String → Option String} {root : String} :
    ∀ (requests : List String) {acc : List String}, acc.Nodup →
      (requests.foldl (handle_request ext root) acc).Nodup
  | [], _, h => h
  | _ :: us, _, h =>
    nodup_foldl_handle_request us (nodup_handle_request h)

theorem mem_observedDomains {ext : String → Option String} {root : String}
    {requests : List String} {y : String} (h : y ∈ observedDomains ext root requests) :
    y ≠ "" ∧ y ≠ root := by
  rcases mem_foldl_handle_request requests h with h' | h'
  · cases h'
  · exact h'

theorem nodup_observedDomains (ext : String → Option String) (root : String)
    (requests : List String) : (observedDomains ext root requests).Nodup :=
  nodup_foldl_handle_request requests List.nodup_nil

/-! ## `sorted(...)`: order, uniqueness, membership -/

theorem pySorted_sorted (l : List String) : List.Sorted pyLe (pySorted l) :=
  List.sorted_insertionSort pyLe l

theorem pySorted_perm (l : List String) : (pySorted l).Perm l :=
  List.perm_insertionSort pyLe l

theorem pySorted_nodup {l : List String} (h : l.Nodup) : (pySorted l).Nodup :=
  ((pySorted_perm l).nodup_iff).mpr h

theorem mem_pySorted {l : List String} {x : String} :
    x ∈ pySorted l ↔ x ∈ l :=
  (pySorted_perm l).mem_iff

theorem pySorted_pairwise_lt {l : List String} (h : l.Nodup) :
    (pySorted l).Pairwise pyLt :=
  ((pySorted_sorted l).and (pySorted_nodup h)).imp (fun hab => hab)

/-! ## What `extract_third_party` returns -/

theorem extract_ok_cases {ext : String → Option String} {run : ObserverRun}
    {url : String} {ds : List String}
    (h : extract_third_party ext run url = .ok ds) :
    ds = [] ∨ ∃ root, ext (normalizeUrl url) = some root ∧ root ≠ "" ∧
      ds = pySorted (observedDomains ext root run.requests) := by
  simp only [extract_third_party] at h
  cases hext : ext (normalizeUrl url) with
  | none =>
    simp only [hext] at h
    injection h with h'
    exact Or.inl h'.symm
  | some root =>
    simp only [hext] at h
    by_cases hroot : root = ""
    · rw [if_pos hroot] at h
      injection h with h'
      exact Or.inl h'.symm
    · rw [if_neg hroot] at h
      by_cases htd : teardownRaises run = true
      · rw [if_pos htd] at h
        cases h
      · rw [if_neg htd] at h
        injection h with h'
        exact Or.inr ⟨root, rfl, hroot, h'.symm⟩

theorem extract_ok_pairwise {ext : String → Option String} {run : ObserverRun}
    {url : String} {ds : List String}
    (h : extract_third_party ext run url = .ok ds) : ds.Pairwise pyLt := by
  rcases extract_ok_cases h with rfl | ⟨root, _, _, rfl⟩
  · exact List.Pairwise.nil
  · exact pySorted_pairwise_lt (nodup_observedDomains ..)

theorem extract_ok_nodup {ext : String → Option String} {run : ObserverRun}
    {url : String} {ds : List String}
    (h : extract_third_party ext run url = .ok ds) : ds.Nodup :=
  (extract_ok_pairwise h).imp (fun hab => hab.2)

theorem extract_ok_mem {ext : String → Option String} {run : ObserverRun}
    {url : String} {ds : List String} {x : String}
    (h : extract_third_party ext run url = .ok ds) (hx : x ∈ ds) :
    x ≠ "" ∧ some x ≠ ext (normalizeUrl url) := by
  rcases extract_ok_cases h with rfl | ⟨root, hext, _, rfl⟩
  · cases hx
  · have hm := mem_observedDomains (mem_pySorted.mp hx)
    refine ⟨hm.1, ?_⟩
    rw [hext]
    intro hc
    injection hc with hxr
    exact hm.2 hxr

/-! ## The resolver loop: one lookup per domain, order preservation -/

theorem lookup_run_trace (fetch : String → HttpResult) :
    ∀ ds : List String, (lookup_ddg_run fetch ds).2 = ds.map rawUrl
  | [] => rfl
  | d :: ds => by
    have ih := lookup_run_trace fetch ds
    cases hfetch : fetch (rawUrl d) with
    | exn => simp [lookup_ddg_run, hfetch, ih]
    | resp s b =>
      cases b <;> by_cases hs : s = 200 <;>
        simp [lookup_ddg_run, hfetch, hs, ih]

theorem lookup_run_sources (fetch : String → HttpResult) :
    ∀ ds : List String, List.Sublist ((lookup_ddg_run fetch ds).1.map Prod.fst) ds
  | [] => List.Sublist.refl []
  | d :: ds => by
    have ih := lookup_run_sources fetch ds
    cases hfetch : fetch (rawUrl d) with
    | exn =>
      simp only [lookup_ddg_run, hfetch]
      exact ih.cons d
    | resp s b =>
      by_cases hs : s = 200
      · cases b with
        | parsed data =>
          simp only [lookup_ddg_run, hfetch, if_pos hs, List.map_cons]
          exact ih.cons₂ d
        | invalid =>
          simp only [lookup_ddg_run, hfetch, if_pos hs]
          exact ih.cons d
      · simp only [lookup_ddg_run, hfetch, if_neg hs, ite_self]
        exact ih.cons d

theorem lookup_run_append (fetch : String → HttpResult) :
    ∀ l₁ l₂ : List String,
      lookup_ddg_run fetch (l₁ ++ l₂) =
        ((lookup_ddg_run fetch l₁).1 ++ (lookup_ddg_run fetch l₂).1,
         (lookup_ddg_run fetch l₁).2 ++ (lookup_ddg_run fetch l₂).2)
  | [], _ => rfl
  | d :: l₁, l₂ => by
    have ih := lookup_run_append fetch l₁ l₂
    cases hfetch : fetch (rawUrl d) with
    | exn => simp [lookup_ddg_run, hfetch, ih]
    | resp s b =>
      cases b <;> by_cases hs : s = 200 <;>
        simp [lookup_ddg_run, hfetch, hs, ih]

theorem lookup_run_cons_skip {fetch : String → HttpResult} {d : String}
    (ds : List String) (h : yieldsNoHit (fetch (rawUrl d)) = true) :
    lookup_ddg_run fetch (d :: ds) =
      ((lookup_ddg_run fetch ds).1, rawUrl d :: (lookup_ddg_run fetch ds).2) := by
  cases hfetch : fetch (rawUrl d) with
  | exn => simp [lookup_ddg_run, hfetch]
  | resp s b =>
    rw [hfetch] at h
    cases b with
    | parsed data =>
      by_cases hs : s = 200
      · subst hs
        simp [yieldsNoHit] at h
      · simp [lookup_ddg_run, hfetch, hs]
    | invalid =>
      by_cases hs : s = 200 <;> simp [lookup_ddg_run, hfetch, hs]

/-! ## The emission loop -/

theorem emitLoop_snd :
    ∀ l : List (String × Tracker),
      (emitLoop l).map Prod.snd = emitLoopP (l.map Prod.snd)
  | [] => rfl
  | (d, t) :: ps => by
    have ih := emitLoop_snd ps
    cases h : emitTracker t <;> simp [emitLoop, emitLoopP, h, ih]

theorem emitLoop_sources :
    ∀ l : List (String × Tracker),
      List.Sublist ((emitLoop l).map Prod.fst) (l.map Prod.fst)
  | [] => List.Sublist.refl []
  | (d, t) :: ps => by
    have ih := emitLoop_sources ps
    cases h : emitTracker t with
    | ok f =>
      simp only [emitLoop, h, List.map_cons]
      exact ih.cons₂ d
    | error e =>
      simp only [emitLoop, h, List.map_cons, List.map_nil]
      exact (List.nil_sublist _).cons d

theorem emitLoop_mem :
    ∀ {l : List (String × Tracker)} {p : String × Finding},
      p ∈ emitLoop l → ∃ t, (p.1, t) ∈ l ∧ emitTracker t = .ok p.2
  | (d, t) :: ps, p, hp => by
    cases h : emitTracker t with
    | ok f =>
      rw [emitLoop, h] at hp
      rcases List.mem_cons.mp hp with rfl | hp'
      · exact ⟨t, List.mem_cons_self .., h⟩
      · obtain ⟨t', ht', he⟩ := emitLoop_mem hp'
        exact ⟨t', List.mem_cons_of_mem _ ht', he⟩
    | error e =>
      rw [emitLoop, h] at hp
      cases hp

/-! ## Relating `scan_url` to its instrumented form -/

theorem scan_url_eq_pairs (ext : String → Option String) (run : ObserverRun)
    (fetch : String → HttpResult) (url : String) :
    scan_url ext run fetch url = (scanPairs ext run fetch url).map Prod.snd := by
  unfold scan_url scanPairs
  cases extract_third_party ext run url with
  | error e => rfl
  | ok ds => exact (emitLoop_snd _).symm

/-! ## Further helper lemmas -/

theorem strPrefixData_append : ∀ p rest : List Char, strPrefixData p (p ++ rest) = true
  | [], _ => rfl
  | c :: cs, rest => by simp [strPrefixData, strPrefixData_append cs rest]

theorem failedLookup_yieldsNoHit {r : HttpResult} (h : failedLookup r = true) :
    yieldsNoHit r = true := by
  cases r with
  | exn => rfl
  | resp s b =>
    cases b with
    | parsed data => simpa [failedLookup, yieldsNoHit] using h
    | invalid => rfl

theorem pyFind_append_new {data : Tracker} {k : String} {v : PyVal}
    (h : pyHasKey data k = false) : pyFind (data ++ [(k, v)]) k = some v := by
  induction data with
  | nil => simp [pyFind]
  | cons kv rest ih =>
    by_cases hk : kv.1 = k
    · exfalso
      simp [pyHasKey, pyFind, List.find?_cons, hk] at h
    · have h' : pyHasKey rest k = false := by
        simpa [pyHasKey, pyFind, List.find?_cons, hk] using h
      simpa [pyFind, List.find?_cons, hk] using ih h'

theorem lookup_run_mem {fetch : String → HttpResult} :
    ∀ {ds : List String} {d : String} {t : Tracker},
      (d, t) ∈ (lookup_ddg_run fetch ds).1 →
      d ∈ ds ∧ ∃ data, fetch (rawUrl d) = .resp 200 (.parsed data) ∧ t = defaultDomain d data
  | d₀ :: ds, d, t, h => by
    have step :
        (d, t) ∈ (lookup_ddg_run fetch ds).1 →
        d ∈ d₀ :: ds ∧ ∃ data, fetch (rawUrl d) = .resp 200 (.parsed data) ∧
          t = defaultDomain d data := fun h' =>
      have ⟨h₁, h₂⟩ := lookup_run_mem h'
      ⟨List.mem_cons_of_mem _ h₁, h₂⟩
    cases hfetch : fetch (rawUrl d₀) with
    | exn =>
      rw [show (lookup_ddg_run fetch (d₀ :: ds)).1 = (lookup_ddg_run fetch ds).1 by
        simp [lookup_ddg_run, hfetch]] at h
      exact step h
    | resp s b =>
      by_cases hs : s = 200
      · subst hs
        cases b with
        | parsed data =>
          rw [show (lookup_ddg_run fetch (d₀ :: ds)).1 =
              (d₀, defaultDomain d₀ data) :: (lookup_ddg_run fetch ds).1 by
            simp [lookup_ddg_run, hfetch]] at h
          rcases List.mem_cons.mp h with heq | h'
          · injection heq with e₁ e₂
            subst e₁
            subst e₂
            exact ⟨List.mem_cons_self .., data, hfetch, rfl⟩
          · exact step h'
        | invalid =>
          rw [show (lookup_ddg_run fetch (d₀ :: ds)).1 = (lookup_ddg_run fetch ds).1 by
            simp [lookup_ddg_run, hfetch]] at h
          exact step h
      · rw [show (lookup_ddg_run fetch (d₀ :: ds)).1 = (lookup_ddg_run fetch ds).1 by
          simp [lookup_ddg_run, hfetch, hs]] at h
        exact step h

theorem emitTracker_ok_domain {t : Tracker} {f : Finding}
    (h : emitTracker t = .ok f) : f.domain = pyGet t "domain" (.str "Unknown") := by
  simp only [emitTracker] at h
  split at h
  · split at h
    · injection h with h'
      subst h'
      rfl
    · cases h
  · cases h

theorem allStrings_of_all_isStr :
    ∀ {xs : List PyVal}, xs.all PyVal.isStr = true →
      allStrings xs = some (xs.filterMap (fun v => match v with | .str s => some s | _ => none))
  | [], _ => rfl
  | .str s :: rest, h => by
    rw [List.all_cons, Bool.and_eq_true] at h
    have ih := @allStrings_of_all_isStr rest h.2
    simp [allStrings, ih, List.filterMap_cons]
  | .num _ :: _, h => by simp [PyVal.isStr] at h
  | .boolV _ :: _, h => by simp [PyVal.isStr] at h
  | .nullV :: _, h => by simp [PyVal.isStr] at h
  | .list _ :: _, h => by simp [PyVal.isStr] at h
  | .dict _ :: _, h => by simp [PyVal.isStr] at h

theorem pyGet_none {t : Tracker} {k : String} {d : PyVal} (h : pyFind t k = none) :
    pyGet t k d = d := by
  rw [pyGet, h]
  rfl

theorem pyGet_some {t : Tracker} {k : String} {v d : PyVal} (h : pyFind t k = some v) :
    pyGet t k d = v := by
  rw [pyGet, h]
  rfl

theorem emitTracker_of_shapeOK {t : Tracker} (h : shapeOK t = true) :
    emitTracker t = .ok (findingSpec t) := by
  rw [shapeOK, Bool.and_eq_true] at h
  obtain ⟨howner, hcats⟩ := h
  have hjoin : pyJoin ", " (pyGet t "categories" (.list [])) =
      .ok (String.intercalate ", " (catLabels t)) := by
    cases hfc : pyFind t "categories" with
    | none =>
      rw [pyGet_none hfc, catLabels, hfc]
      rfl
    | some v =>
      rw [hfc] at hcats
      cases v with
      | list xs =>
        rw [pyGet_some hfc, catLabels, hfc, pyJoin, allStrings_of_all_isStr hcats]
      | str s => exact absurd hcats (by simp)
      | num n => exact absurd hcats (by simp)
      | boolV b => exact absurd hcats (by simp)
      | nullV => exact absurd hcats (by simp)
      | dict kvs => exact absurd hcats (by simp)
  have hcookies : pyGet t "cookies" (.str "N/A") =
      (match pyFind t "cookies" with | some v => v | none => PyVal.str "N/A") := by
    cases hck : pyFind t "cookies" with
    | none => rw [pyGet_none hck]
    | some v => rw [pyGet_some hck]
  cases hfo : pyFind t "owner" with
  | none =>
    simp only [emitTracker, pyGet_none hfo, hjoin, hcookies, findingSpec, hfo]
    rfl
  | some vo =>
    rw [hfo] at howner
    cases vo with
    | dict okvs =>
      simp only [emitTracker, pyGet_some hfo, hjoin, hcookies, findingSpec, hfo]
    | str s => exact absurd howner (by simp)
    | num n => exact absurd howner (by simp)
    | boolV b => exact absurd howner (by simp)
    | nullV => exact absurd howner (by simp)
    | list xs => exact absurd howner (by simp)

theorem emitLoopP_of_all_shapeOK :
    ∀ {trackers : List Tracker}, trackers.all shapeOK = true →
      emitLoopP trackers = trackers.map findingSpec
  | [], _ => rfl
  | t :: ts, h => by
    rw [List.all_cons, Bool.and_eq_true] at h
    rw [emitLoopP, emitTracker_of_shapeOK h.1, emitLoopP_of_all_shapeOK h.2, List.map_cons]

theorem normalizeUrl_starts (x : String) :
    (pyStartsWith (normalizeUrl x) "http://" || pyStartsWith (normalizeUrl x) "https://") = true := by
  rw [normalizeUrl]
  by_cases h : (pyStartsWith x "http://" || pyStartsWith x "https://") = true
  · rw [if_pos h]
    exact h
  · rw [if_neg h]
    have hs : pyStartsWith ("https://" ++ pyLstripSlash x) "https://" = true := by
      rw [pyStartsWith, String.data_append]
      exact strPrefixData_append ..
    rw [hs, Bool.or_true]

theorem normalizeUrl_of_starts {y : String}
    (h : (pyStartsWith y "http://" || pyStartsWith y "https://") = true) :
    normalizeUrl y = y := by
  rw [normalizeUrl, if_pos h]

/-! ## The claims -/

/-- C1: for every scan, the Findings emitted to the consumer appear in
increasing lexicographic order of the third-party domain each one answers
for — the order of the sorted list `ds` produced by `extract_third_party` —
with exactly one lookup attempt per input domain (the fetch trace is
`ds.map rawUrl`) and no domain's Finding emitted twice (the pairwise
strict order makes the queried domains distinct).  Lookups are issued and
consumed sequentially per domain, so response arrival order cannot
reorder emissions. -/
theorem scan_emissions_sorted_one_lookup_each
    {ext : String → Option String} {run : ObserverRun} {fetch : String → HttpResult}
    {url : String} {ds : List String}
    (h : extract_third_party ext run url = .ok ds) :
    ((scanPairs ext run fetch url).map Prod.fst).Pairwise pyLt
    ∧ scan_url ext run fetch url = (scanPairs ext run fetch url).map Prod.snd
    ∧ (lookup_ddg_run fetch ds).2 = ds.map rawUrl := by
  refine ⟨?_, scan_url_eq_pairs .., lookup_run_trace ..⟩
  have hpairs : List.Sublist ((scanPairs ext run fetch url).map Prod.fst) ds := by
    simp only [scanPairs, h]
    exact (emitLoop_sources _).trans (lookup_run_sources fetch ds)
  exact (extract_ok_pairwise h).sublist hpairs

theorem scan_emissions_sorted_one_lookup_each_witness :
    ((scanPairs extSite runAll fetchHits "site.example").map Prod.fst).Pairwise pyLt
    ∧ scan_url extSite runAll fetchHits "site.example"
        = (scanPairs extSite runAll fetchHits "site.example").map Prod.snd
    ∧ (lookup_ddg_run fetchHits ["alpha.example", "zeta.example"]).2
        = ["alpha.example", "zeta.example"].map rawUrl :=
  scan_emissions_sorted_one_lookup_each (by rfl)

/-- C2: a lookup answered by HTTP 404, by any status other than 200, or by
a transport-level failure yields no record for that domain (the hit list
equals the one with the domain removed) and does not prevent the lookup
attempts for the surrounding domains (the fetch trace still covers the
whole input sequence). -/
theorem failed_lookup_skipped_and_continues
    {fetch : String → HttpResult} {d : String} (pre post : List String)
    (h : failedLookup (fetch (rawUrl d)) = true) :
    lookup_ddg fetch (pre ++ d :: post) = lookup_ddg fetch pre ++ lookup_ddg fetch post
    ∧ (lookup_ddg_run fetch (pre ++ d :: post)).2 = (pre ++ d :: post).map rawUrl := by
  have hskip := @lookup_run_cons_skip fetch d post (failedLookup_yieldsNoHit h)
  constructor
  · rw [lookup_ddg, lookup_run_append, hskip]
    simp [lookup_ddg, List.map_append]
  · rw [lookup_run_trace]

theorem failed_lookup_skipped_and_continues_witness :
    failedLookup (fetchMixed (rawUrl "bad.example")) = true
    ∧ (lookup_ddg fetchMixed (["alpha.example"] ++ "bad.example" :: ["zeta.example"])
        = lookup_ddg fetchMixed ["alpha.example"] ++ lookup_ddg fetchMixed ["zeta.example"]
      ∧ (lookup_ddg_run fetchMixed (["alpha.example"] ++ "bad.example" :: ["zeta.example"])).2
        = (["alpha.example"] ++ "bad.example" :: ["zeta.example"]).map rawUrl) :=
  ⟨rfl, failed_lookup_skipped_and_continues ["alpha.example"] ["zeta.example"] rfl⟩

/-- C3: a 200 response whose body is not parseable as JSON is treated like
a lookup failure — `r.json()` raises `JSONDecodeError`, a
`requests.RequestException`, caught at line 123 — so the domain yields no
record and processing of the remaining domains continues. -/
theorem malformed_200_skipped_and_continues
    {fetch : String → HttpResult} {d : String} (pre post : List String)
    (h : fetch (rawUrl d) = .resp 200 .invalid) :
    lookup_ddg fetch (pre ++ d :: post) = lookup_ddg fetch pre ++ lookup_ddg fetch post
    ∧ (lookup_ddg_run fetch (pre ++ d :: post)).2 = (pre ++ d :: post).map rawUrl := by
  have hy : yieldsNoHit (fetch (rawUrl d)) = true := by
    rw [h]
    rfl
  have hskip := @lookup_run_cons_skip fetch d post hy
  constructor
  · rw [lookup_ddg, lookup_run_append, hskip]
    simp [lookup_ddg, List.map_append]
  · rw [lookup_run_trace]

theorem malformed_200_skipped_and_continues_witness :
    fetchBadJson (rawUrl "bad.example") = .resp 200 .invalid
    ∧ (lookup_ddg fetchBadJson (["alpha.example"] ++ "bad.example" :: ["zeta.example"])
        = lookup_ddg fetchBadJson ["alpha.example"] ++ lookup_ddg fetchBadJson ["zeta.example"]
      ∧ (lookup_ddg_run fetchBadJson (["alpha.example"] ++ "bad.example" :: ["zeta.example"])).2
        = (["alpha.example"] ++ "bad.example" :: ["zeta.example"]).map rawUrl) :=
  ⟨rfl, malformed_200_skipped_and_continues ["alpha.example"] ["zeta.example"] rfl⟩

/-- C4: for every extraction oracle, root domain and sequence of raw
observed request URLs, the filtered third-party list
`sorted(list(third_party_domains))` contains neither the root domain nor
the empty string, and contains no duplicates no matter how many raw
requests shared a registrable domain. -/
theorem filter_no_root_no_empty_no_dups (ext : String → Option String)
    (root : String) (requests : List String) :
    root ∉ pySorted (observedDomains ext root requests)
    ∧ "" ∉ pySorted (observedDomains ext root requests)
    ∧ (pySorted (observedDomains ext root requests)).Nodup := by
  refine ⟨?_, ?_, pySorted_nodup (nodup_observedDomains ..)⟩
  · intro hmem
    exact (mem_observedDomains (mem_pySorted.mp hmem)).2 rfl
  · intro hmem
    exact (mem_observedDomains (mem_pySorted.mp hmem)).1 rfl

/-- C5 (counterexample): when the 200 body itself supplies a `"domain"`
field, the emitted Finding carries it verbatim.  Scanning `site.example`
captures the third-party set `["alpha.example"]`, but the body served for
`alpha.example` says `{"domain": "site.example"}`, so the emitted
Finding's domain equals the scan target's root domain and lies outside
the third-party set — the claimed invariant fails. -/
theorem finding_domain_equals_root_cex :
    extract_third_party extSite runAlpha "site.example" = .ok ["alpha.example"]
    ∧ (scan_url extSite runAlpha fetchLiar "site.example").map Finding.domain
        = [PyVal.str "site.example"]
    ∧ extSite (normalizeUrl "site.example") = some "site.example"
    ∧ (["alpha.example"].contains "site.example") = false :=
  ⟨rfl, rfl, rfl, rfl⟩

/-- C5 (amended): whenever every 200 body lacks a `"domain"` field (so the
default of lines 115-116 applies), every emitted Finding's domain is the
string of the domain queried for it, which belongs to the third-party set
produced by the filter and differs from the scan target's root domain.
When a body supplies its own `"domain"` value it is emitted verbatim and
may violate both properties. -/
theorem finding_domain_in_set_when_bodies_lack_domain
    {ext : String → Option String} {run : ObserverRun} {fetch : String → HttpResult}
    {url : String} {ds : List String}
    (h : extract_third_party ext run url = .ok ds)
    (hbody : ∀ u, lacksDomainKey (fetch u) = true) :
    List.Forall
      (fun p => p.2.domain = PyVal.str p.1 ∧ p.1 ∈ ds ∧ some p.1 ≠ ext (normalizeUrl url))
      (scanPairs ext run fetch url) := by
  rw [List.forall_iff_forall_mem]
  intro p hp
  simp only [scanPairs, h] at hp
  obtain ⟨t, hpt, hok⟩ := emitLoop_mem hp
  obtain ⟨hd, data, hfetch, ht⟩ := lookup_run_mem hpt
  have hnk : pyHasKey data "domain" = false := by
    have hb := hbody (rawUrl p.1)
    rw [hfetch] at hb
    simpa [lacksDomainKey] using hb
  have hdom : pyFind t "domain" = some (.str p.1) := by
    rw [ht, defaultDomain, if_neg (by simp [hnk]), pySetNew]
    exact pyFind_append_new hnk
  refine ⟨?_, hd, (extract_ok_mem h hd).2⟩
  rw [emitTracker_ok_domain hok, pyGet_some hdom]

theorem finding_domain_in_set_when_bodies_lack_domain_witness :
    List.Forall
      (fun p => p.2.domain = PyVal.str p.1 ∧ p.1 ∈ ["alpha.example", "zeta.example"]
        ∧ some p.1 ≠ extSite (normalizeUrl "site.example"))
      (scanPairs extSite runAll fetchHits "site.example") :=
  finding_domain_in_set_when_bodies_lack_domain (by rfl)
    (fun u => by
      simp only [fetchHits]
      split
      · rfl
      · split
        · rfl
        · rfl)

/-- C6 (code bug): the `finally` block of lines 87-94 initializes only
`browser` before the `try` (line 42), so on a browser-launch failure or a
`new_page` failure the first statement `if page:` raises
`UnboundLocalError`, which propagates out of `extract_third_party` instead
of a returned list; and after a `new_page` failure the created browser
(and context) are never closed. -/
theorem observer_setup_failure_raises_and_leaks :
    extract_third_party extSite runLaunchFail "site.example"
        = .error (.unboundLocal "page")
    ∧ extract_third_party extSite runPageFail "site.example"
        = .error (.unboundLocal "page")
    ∧ browserCreated runPageFail = true
    ∧ teardown runPageFail = ⟨false, false, false⟩
    ∧ teardown runLaunchFail = ⟨false, false, false⟩ :=
  ⟨rfl, rfl, rfl, rfl, rfl⟩

/-- C7 (counterexample): a scan whose browser session fails to navigate
after capturing a third-party request still emits a Finding — the
navigation exception is caught at line 84 and the partially captured set
flows on — so "the browser fails to ... navigate ⇒ zero Findings" is
false on the code. -/
theorem nav_failure_emits_findings_cex :
    runNavError.nav = NavOutcome.navError
    ∧ (scan_url extSite runNavError fetchHits "site.example").length = 1 :=
  ⟨rfl, rfl⟩

/-- C7 (amended): when the root domain cannot be resolved (`tldextract`
raises, or yields an empty registrable domain) or the browser fails to
launch, the scan emits zero Findings; `scan_url` catches every exception
(line 313), so nothing propagates to its caller.  A navigation failure,
by contrast, yields the Findings of the partially captured set. -/
theorem scan_zero_findings_on_root_or_launch_failure
    {ext : String → Option String} {run : ObserverRun} {fetch : String → HttpResult}
    {url : String}
    (h : ext (normalizeUrl url) = none ∨ ext (normalizeUrl url) = some "" ∨
         run.launchOk = false) :
    scan_url ext run fetch url = [] := by
  rcases h with h | h | h
  · simp [scan_url, extract_third_party, h, lookup_ddg, lookup_ddg_run, emitLoopP]
  · simp [scan_url, extract_third_party, h, lookup_ddg, lookup_ddg_run, emitLoopP]
  · have htd : teardownRaises run = true := by
      simp [teardownRaises, h]
    cases hext : ext (normalizeUrl url) with
    | none => simp [scan_url, extract_third_party, hext, lookup_ddg, lookup_ddg_run, emitLoopP]
    | some root =>
      by_cases hroot : root = ""
      · subst hroot
        simp [scan_url, extract_third_party, hext, lookup_ddg, lookup_ddg_run, emitLoopP]
      · simp [scan_url, extract_third_party, hext, hroot, htd]

theorem scan_zero_findings_on_root_or_launch_failure_witness :
    scan_url extSite runLaunchFail fetchHits "site.example" = [] :=
  scan_zero_findings_on_root_or_launch_failure (Or.inr (Or.inr rfl))

/-- C8: a navigation timeout is caught like any navigation outcome
(line 84 only prints), so the Observer still returns the sorted set built
from the requests captured up to the timeout, and that partial set flows
on to the filter and resolver stages of the scan unchanged. -/
theorem timeout_yields_captured_set
    {ext : String → Option String} {url root : String}
    (fetch : String → HttpResult) (requests : List String)
    (h1 : ext (normalizeUrl url) = some root) (h2 : root ≠ "") :
    extract_third_party ext ⟨true, true, true, requests, .timeout⟩ url
        = .ok (pySorted (observedDomains ext root requests))
    ∧ scan_url ext ⟨true, true, true, requests, .timeout⟩ fetch url
        = emitLoopP (lookup_ddg fetch (pySorted (observedDomains ext root requests))) := by
  have he : extract_third_party ext ⟨true, true, true, requests, .timeout⟩ url
      = .ok (pySorted (observedDomains ext root requests)) := by
    simp [extract_third_party, h1, h2, teardownRaises]
  exact ⟨he, by simp [scan_url, he]⟩

theorem timeout_yields_captured_set_witness :
    extract_third_party extSite
        ⟨true, true, true, ["https://cdn.alpha.example/a.js"], .timeout⟩ "site.example"
      = .ok (pySorted (observedDomains extSite "site.example" ["https://cdn.alpha.example/a.js"]))
    ∧ scan_url extSite
        ⟨true, true, true, ["https://cdn.alpha.example/a.js"], .timeout⟩ fetchHits "site.example"
      = emitLoopP (lookup_ddg fetchHits
          (pySorted (observedDomains extSite "site.example" ["https://cdn.alpha.example/a.js"]))) :=
  timeout_yields_captured_set fetchHits ["https://cdn.alpha.example/a.js"] rfl (by decide)

/-- C9 (counterexample): the code passes `tracker.get("cookies", "N/A")`
through verbatim, so a resolved record storing a number under `"cookies"`
(as the real tracker-radar dataset does) produces an event whose cookies
value is that number — not a string and not `"N/A"`. -/
theorem emitted_cookies_value_not_string_cex :
    (scan_url extSite runAlpha fetchNumCookies "site.example").map Finding.cookies
        = [PyVal.num 1]
    ∧ PyVal.isStr (PyVal.num 1) = false :=
  ⟨rfl, rfl⟩

/-- C9 (amended): for every resolved record whose `"owner"` value (when
present) is an object and whose `"categories"` value (when present) is a
list of strings, exactly one event is emitted, in order, carrying the
record's domain value, its `owner.name` or `"Unknown"` when absent, the
`", "`-joined category labels (possibly empty), and the record's cookies
value verbatim or `"N/A"` when absent — the spec-worded `findingSpec`. -/
theorem one_event_per_wellshaped_record
    {ext : String → Option String} {run : ObserverRun} {fetch : String → HttpResult}
    {url : String} {ds : List String}
    (h : extract_third_party ext run url = .ok ds)
    (hshape : (lookup_ddg fetch ds).all shapeOK = true) :
    scan_url ext run fetch url = (lookup_ddg fetch ds).map findingSpec := by
  simp only [scan_url, h]
  exact emitLoopP_of_all_shapeOK hshape

theorem one_event_per_wellshaped_record_witness :
    scan_url extSite runAll fetchHits "site.example"
        = (lookup_ddg fetchHits ["alpha.example", "zeta.example"]).map findingSpec :=
  one_event_per_wellshaped_record (by rfl) (by rfl)

/-- C10: the URL normalization of lines 25-26 is idempotent — its output
always starts with `http://` or `https://`, and such inputs are returned
unchanged. -/
theorem normalizeUrl_idempotent (x : String) :
    normalizeUrl (normalizeUrl x) = normalizeUrl x :=
  normalizeUrl_of_starts (normalizeUrl_starts x)

end Trackstack
